import Mathlib

/-!
Shallow embedding of the Liftly frontend provider composition.

Source files embedded:
- `src/app/providers/redux-provider.tsx` (`ReduxProvider`, calling the
  external store factory `makeStore` from `@/shared/config/store/store`);
- the main provider file (`MainProvider`, rendering a fragment of the
  Redux-wrapped children followed by the toast surface);
- the toast provider file (`ToastProvider`, rendering a `react-hot-toast`
  `Toaster` with fixed configuration inside a `div`).

Modelling choices:
- A React render is a function from props and an allocation counter to a
  virtual-DOM tree plus the updated counter.  The counter models object
  identity for stores: each call to `makeStore()` in JavaScript produces a
  fresh object, embedded here as a fresh natural-number identity.
- The opaque `children : ReactNode` prop is an arbitrary `Node` value, so
  universal quantification over children is quantification over `Node`.
- The store factory `makeStore` is external to this repository slice; it is
  embedded as an allocator returning a store with a fresh identity and an
  empty dispatch log (dispatching would append to the log; the executable
  source never dispatches).
-/

/-- A Redux store instance produced by the external factory `makeStore`.
`id` models JavaScript object identity of the store; `dispatched` records
the actions dispatched into the store since construction. -/
structure Store where
  id : Nat
  dispatched : List String
deriving DecidableEq, Repr

/-- The fixed inline style object passed to the `Toaster` via
`toastOptions.style` in the toast provider source. -/
structure ToastStyle where
  background : String
  color : String
  border : String
  padding : String
deriving DecidableEq, Repr

/-- Virtual-DOM trees produced by the three components.  Constructor arities
match the source exactly: the `react-redux` `Provider` has one child, the
`div` in `ToastProvider` has one child, and `MainProvider`'s fragment has
exactly two children. -/
inductive Node where
  | text (s : String)
  | reduxStoreProvider (store : Store) (child : Node)
  | toaster (pos : String) (duration : Nat) (style : ToastStyle)
  | divEl (child : Node)
  | fragment (first second : Node)
deriving DecidableEq, Repr

/-- The external store factory (`makeStore` from
`@/shared/config/store/store`): constructs a fresh store (fresh identity,
nothing dispatched yet) and advances the allocation counter. -/
def makeStore (alloc : Nat) : Store × Nat :=
  (⟨alloc, []⟩, alloc + 1)

/-- `ReduxProvider` from `redux-provider.tsx`: its render body is
`return <Provider store={makeStore()}>{children}</Provider>;`.  The
commented-out `useRef` memoization and `initialUser` hydration are absent
from the executable source and hence from this embedding. -/
def ReduxProvider (children : Node) (alloc : Nat) : Node × Nat :=
  let s := makeStore alloc
  (Node.reduxStoreProvider s.1 children, s.2)

/-- `ToastProvider`: renders a `div` containing a `Toaster` with position
`top-center`, duration `4000`, and the fixed style object.  It takes no
props and allocates nothing, so the counter is returned unchanged. -/
def ToastProvider (alloc : Nat) : Node × Nat :=
  (Node.divEl (Node.toaster "top-center" 4000
    ⟨"#fff", "#333", "1px solid #319691", "12px 16px"⟩), alloc)

/-- `MainProvider`: renders
`<> <ReduxProvider>{children}</ReduxProvider> <ToastProvider/> </>`,
a fragment whose first child is the Redux-wrapped subtree and whose second
child is the toast surface. -/
def MainProvider (children : Node) (alloc : Nat) : Node × Nat :=
  let r := ReduxProvider children alloc
  let t := ToastProvider r.2
  (Node.fragment r.1 t.1, t.2)

/-- The tree rendered by `ToastProvider` (it is independent of the
allocation counter, see `toast_provider_output_invariant`). -/
def toastHost : Node :=
  Node.divEl (Node.toaster "top-center" 4000
    ⟨"#fff", "#333", "1px solid #319691", "12px 16px"⟩)

/-- The store supplied to the subtree by the (leftmost, outermost) Redux
provider in a rendered tree, if any: descends through the fragment's first
child as `MainProvider` places the Redux provider there. -/
def providedStore : Node → Option Store
  | Node.fragment a _ => providedStore a
  | Node.reduxStoreProvider s _ => some s
  | _ => none

/-- The child subtree wrapped by the (leftmost, outermost) Redux provider in
a rendered tree, if any. -/
def reduxChild : Node → Option Node
  | Node.fragment a _ => reduxChild a
  | Node.reduxStoreProvider _ c => some c
  | _ => none

/-- The top-level sibling list of a rendered tree: a fragment contributes
its two children in document order; any other node is a singleton. -/
def siblingsOf : Node → List Node
  | Node.fragment a b => [a, b]
  | n => [n]

/-- The number of Redux `Provider` nodes occurring in a tree. -/
def provCount : Node → Nat
  | Node.reduxStoreProvider _ c => provCount c + 1
  | Node.divEl c => provCount c
  | Node.fragment a b => provCount a + provCount b
  | Node.text _ => 0
  | Node.toaster _ _ _ => 0

/-- Claim C1: the store identity provided to the subtree stays the same
object across re-renders of the provider composition.  The code violates
this: `ReduxProvider` calls `makeStore()` in its render body, so two
consecutive renders of `MainProvider` with the same child provide two
distinct store instances.  This theorem evaluates the embedding at the
failing input (child `text "app"`, initial allocation counter `0`): the
first render provides store identity `0`, the second provides `1`. -/
theorem main_provider_reconstructs_store_across_renders :
    providedStore (MainProvider (Node.text "app") 0).1 ≠
      providedStore
        (MainProvider (Node.text "app") (MainProvider (Node.text "app") 0).2).1 := by
  decide

/-- Claim C2: every render of `ReduxProvider` invokes `makeStore` and
provides the freshly constructed store, so two successive renders (the
second starting from the allocation state the first left behind) provide
distinct store instances, whatever the children of each render are. -/
theorem redux_provider_fresh_store_each_render (c c' : Node) (a : Nat) :
    (ReduxProvider c a).1 = Node.reduxStoreProvider (makeStore a).1 c ∧
      providedStore (ReduxProvider c a).1 ≠
        providedStore (ReduxProvider c' (ReduxProvider c a).2).1 := by
  refine ⟨rfl, ?_⟩
  simp only [ReduxProvider, makeStore, providedStore]
  intro h
  have h2 : Store.mk a [] = Store.mk (a + 1) [] := by
    exact Option.some.inj h
  have h3 : a = a + 1 := congrArg Store.id h2
  omega

/-- Claim C3: for every child subtree, `MainProvider` renders the Redux
provider wrapping that subtree, and mounts the toast surface as the second
child of the fragment — a sibling of the wrapped subtree, not a wrapper
around it. -/
theorem main_provider_toast_sibling_of_wrapped_children (c : Node) (a : Nat) :
    (MainProvider c a).1 =
      Node.fragment (Node.reduxStoreProvider (makeStore a).1 c) toastHost :=
  rfl

/-- Claim C4: the rendered output of `MainProvider` contains the child
subtree as the direct child of a Redux provider node, and it introduces
exactly one Redux provider node beyond any the child subtree already
contains. -/
theorem main_provider_exactly_one_store_provider (c : Node) (a : Nat) :
    provCount (MainProvider c a).1 = provCount c + 1 ∧
      reduxChild (MainProvider c a).1 = some c := by
  constructor
  · simp [MainProvider, ReduxProvider, ToastProvider, provCount]
  · rfl

/-- Claim C5: whenever the toast surface is mounted, its host is configured
with position `top-center`, auto-dismiss duration `4000`, background
`\x23fff`, text color `\x23333`, border `1px solid \x23319691`, and padding
`12px 16px`. -/
theorem toast_provider_fixed_configuration (a : Nat) :
    (ToastProvider a).1 =
      Node.divEl (Node.toaster "top-center" 4000
        ⟨"#fff", "#333", "1px solid #319691", "12px 16px"⟩) :=
  rfl

/-- Claim C6: `ReduxProvider` performs no initial-session hydration: the
store it provides is exactly the store `makeStore` constructs, and that
store's dispatch log is empty — nothing is dispatched into it before it is
handed to the subtree (the `initialUser` hydration path is commented out of
the executable source). -/
theorem redux_provider_no_hydration_dispatch (c : Node) (a : Nat) :
    (ReduxProvider c a).1 = Node.reduxStoreProvider (makeStore a).1 c ∧
      ((makeStore a).1).dispatched = [] :=
  ⟨rfl, rfl⟩

/-- Claim C7: `ToastProvider` is stateless and input-free: any two
invocations, in any two render contexts, produce identical rendered output,
and an invocation leaves the allocation state untouched. -/
theorem toast_provider_output_invariant (a a' : Nat) :
    (ToastProvider a).1 = (ToastProvider a').1 ∧ (ToastProvider a).2 = a :=
  ⟨rfl, rfl⟩

/-- Claim C8: rendering each of the three components is total with no error
branch: for every child subtree and render context, each render function
returns exactly the element characterized below — there is no conditional
error path or failure value in any of them. -/
theorem providers_render_total (c : Node) (a : Nat) :
    MainProvider c a =
        (Node.fragment (Node.reduxStoreProvider ⟨a, []⟩ c) toastHost, a + 1) ∧
      ReduxProvider c a = (Node.reduxStoreProvider ⟨a, []⟩ c, a + 1) ∧
      ToastProvider a = (toastHost, a) :=
  ⟨rfl, rfl, rfl⟩

/-- Claim C9: the child subtree is passed through unchanged: the exact
subtree handed to `MainProvider` is forwarded to `ReduxProvider` and appears
as the sole child of the Redux provider node (whose constructor has exactly
one child slot) — no transformation, duplication, or omission. -/
theorem main_provider_child_passthrough (c : Node) (a : Nat) :
    reduxChild (MainProvider c a).1 = some c ∧
      (ReduxProvider c a).1 = Node.reduxStoreProvider (makeStore a).1 c :=
  ⟨rfl, rfl⟩

/-- Claim C10: in `MainProvider`'s rendered fragment, the sibling list in
document order is the Redux-wrapped subtree first and the toast surface
second: the notification surface is always mounted after the application
subtree. -/
theorem main_provider_sibling_order (c : Node) (a : Nat) :
    siblingsOf (MainProvider c a).1 =
      [Node.reduxStoreProvider (makeStore a).1 c, toastHost] :=
  rfl
